import Mathlib

/-!
Shallow embedding of the storpool-block reactive charm layer
(src/reactive/storpool_block.py, plus the older variant
src/reactive/storpool-block.py where it adds a rule).

The reactive framework keeps a set of named boolean states ("facts").
Each handler is guarded by `@reactive.when` (positive guards) and
`@reactive.when_not` (negative guards) decorators and, when fired,
mutates the fact set and invokes external action primitives
(package installation, service control, status reporting).

We model the fact vocabulary as a structure of booleans, the outcomes of
the external collaborators (LXC probe, cgroup probe, configured version,
install result) as an `Env` record read at evaluation time, and each
handler as a pure function from facts to facts plus the list of action
primitive invocations it emits.
-/

namespace StorpoolBlock

/-- The boolean facts ("reactive states") the layer reads or writes.

  * `repoAvailable`    — storpool-repo-add.available
  * `configWritten`    — storpool-common.config-written
  * `packageInstalled` — storpool-block.package-installed
  * `beaconStarted`    — storpool-beacon.beacon-started (peer-ready)
  * `blockStarted`     — storpool-block.block-started (service-started)
  * `stop`             — storpool-block.stop (stop-requested)
  * `stopped`          — storpool-block.stopped
  * `beaconStop`       — storpool-beacon.stop (cross-component stop signal) -/
structure Facts where
  repoAvailable : Bool
  configWritten : Bool
  packageInstalled : Bool
  beaconStarted : Bool
  blockStarted : Bool
  stop : Bool
  stopped : Bool
  beaconStop : Bool
deriving DecidableEq

/-- Outcomes of the external collaborator calls, fixed for one evaluation:
`sputils.check_in_lxc()`, `sputils.check_cgroups('block')`,
`hookenv.config().get('storpool_version', None)`, and the
`(err, newly_installed)` pair returned by `sprepo.install_packages`. -/
structure Env where
  inLxc : Bool
  cgroupsOk : Bool
  storpoolVersion : Option String
  installErr : Option String
  newlyInstalled : List String
deriving DecidableEq

/-- Status severities used by the charm status channel. -/
inductive Severity where
  | maintenance
  | blocked
  | active
  | error
deriving DecidableEq

/-- Action-primitive invocations a handler can emit, in emission order.
`npset` is the status-channel report `spstatus.npset(severity, message)`. -/
inductive Action where
  | npset (sev : Severity) (msg : String)
  | installPackages (pkg : String) (ver : String)
  | recordPackages (tag : String) (names : List String)
  | serviceResume (name : String)
  | servicePause (name : String)
  | unrecordPackages (tag : String)
deriving DecidableEq

/-- Status message set before reading the configured version. -/
def obtainingMsg : String := "obtaining the requested StorPool version"

/-- Status message set before invoking the install primitive. -/
def installingMsg : String := "installing the StorPool block packages"

/-- Handler body of `install_package` (src/reactive/storpool_block.py
lines 25-61): in LXC just assert package-installed; otherwise report
progress, read the configured version (abort silently when absent or
empty), invoke the install primitive, abort on error, record any newly
installed packages, assert package-installed and clear the status. -/
def install_package (env : Env) (f : Facts) : Facts × List Action :=
  if env.inLxc then
    ({ f with packageInstalled := true }, [])
  else
    match env.storpoolVersion with
    | none => (f, [Action.npset Severity.maintenance obtainingMsg])
    | some v =>
      if v = "" then
        (f, [Action.npset Severity.maintenance obtainingMsg])
      else
        let pre : List Action :=
          [Action.npset Severity.maintenance obtainingMsg,
           Action.npset Severity.maintenance installingMsg,
           Action.installPackages "storpool-block" v]
        match env.installErr with
        | some _ => (f, pre)
        | none =>
          let recs : List Action :=
            if env.newlyInstalled.isEmpty then []
            else [Action.recordPackages "storpool-block" env.newlyInstalled]
          ({ f with packageInstalled := true },
           pre ++ recs ++ [Action.npset Severity.maintenance ""])

/-- Handler body of `enable_and_start` (src/reactive/storpool_block.py
lines 68-82): in LXC just assert block-started; otherwise abort silently
when the cgroup probe fails, else resume the service and assert
block-started. -/
def enable_and_start (env : Env) (f : Facts) : Facts × List Action :=
  if env.inLxc then
    ({ f with blockStarted := true }, [])
  else if !env.cgroupsOk then
    (f, [])
  else
    ({ f with blockStarted := true }, [Action.serviceResume "storpool_block"])

/-- Handler body of `restart` (src/reactive/storpool_block.py
lines 88-92): retract block-started. -/
def restart (_env : Env) (f : Facts) : Facts × List Action :=
  ({ f with blockStarted := false }, [])

/-- Handler body of `restart_even_better` (src/reactive/storpool-block.py
lines 76-77, present only in the older variant of the layer): retract
block-started. -/
def restart_even_better (_env : Env) (f : Facts) : Facts × List Action :=
  ({ f with blockStarted := false }, [])

/-- Handler body of `reinstall` (src/reactive/storpool_block.py
lines 98-102): retract package-installed. -/
def reinstall (_env : Env) (f : Facts) : Facts × List Action :=
  ({ f with packageInstalled := false }, [])

/-- Body of `reset_states` (src/reactive/storpool_block.py lines 105-111):
retract package-installed and block-started. -/
def reset_states (f : Facts) : Facts :=
  { f with packageInstalled := false, blockStarted := false }

/-- Hook body of `remove_states_on_upgrade` (src/reactive/storpool_block.py
lines 115-120), run on the upgrade-charm event: just `reset_states`. -/
def remove_states_on_upgrade (f : Facts) : Facts :=
  reset_states f

/-- Handler body of `remove_leftovers` (src/reactive/storpool_block.py
lines 125-143): retract the stop request; outside LXC pause the service
and unrecord/uninstall the layer's packages; signal storpool-beacon to
stop; reset the install/start states; assert stopped. -/
def remove_leftovers (env : Env) (f : Facts) : Facts × List Action :=
  let f1 : Facts := { f with stop := false }
  let acts : List Action :=
    if env.inLxc then []
    else [Action.servicePause "storpool_block",
          Action.unrecordPackages "storpool-block"]
  let f2 : Facts := { f1 with beaconStop := true }
  let f3 : Facts := reset_states f2
  ({ f3 with stopped := true }, acts)

/-- Guard of `install_package`: when storpool-repo-add.available and
storpool-common.config-written, when_not package-installed, when_not
stopped. -/
def install_package_guard (f : Facts) : Bool :=
  f.repoAvailable && f.configWritten && !f.packageInstalled && !f.stopped

/-- Guard of `enable_and_start`: when package-installed and
beacon-started, when_not block-started, when_not stopped. -/
def enable_and_start_guard (f : Facts) : Bool :=
  f.packageInstalled && f.beaconStarted && !f.blockStarted && !f.stopped

/-- Guard of `restart`: when block-started, when_not package-installed,
when_not stopped. -/
def restart_guard (f : Facts) : Bool :=
  f.blockStarted && !f.packageInstalled && !f.stopped

/-- Guard of `restart_even_better` (older variant only): when
block-started, when_not beacon-started, when_not stopped. -/
def restart_even_better_guard (f : Facts) : Bool :=
  f.blockStarted && !f.beaconStarted && !f.stopped

/-- Guard of `reinstall`: when package-installed, when_not
config-written, when_not stopped. -/
def reinstall_guard (f : Facts) : Bool :=
  f.packageInstalled && !f.configWritten && !f.stopped

/-- Guard of `remove_leftovers`: when storpool-block.stop, when_not
stopped. -/
def remove_leftovers_guard (f : Facts) : Bool :=
  f.stop && !f.stopped

/-- A guarded reactive rule: guard over the fact snapshot, action on the
threaded state. -/
structure Rule where
  guard : Facts → Bool
  act : Env → Facts → Facts × List Action

/-- The guarded rules of src/reactive/storpool_block.py, in file order. -/
def mainRules : List Rule :=
  [⟨install_package_guard, install_package⟩,
   ⟨enable_and_start_guard, enable_and_start⟩,
   ⟨restart_guard, restart⟩,
   ⟨reinstall_guard, reinstall⟩,
   ⟨remove_leftovers_guard, remove_leftovers⟩]

/-- True when some guarded rule's guard is satisfied by the fact set:
evaluation has not converged yet. -/
def anyGuard (f : Facts) : Bool :=
  mainRules.any fun r => r.guard f

/-- One evaluation pass: guards are checked against the fact snapshot
taken at pass start, every satisfied rule fires once in file order, fact
mutations are threaded and emitted actions are concatenated. -/
def runPass (env : Env) (f : Facts) : Facts × List Action :=
  (mainRules.filter fun r => r.guard f).foldl
    (fun acc r =>
      let res := r.act env acc.1
      (res.1, acc.2 ++ res.2))
    (f, [])

/-- External triggers: an ordinary reactive dispatch, or the
upgrade-charm lifecycle event (which runs the upgrade hook and then
dispatches the reactive handlers). -/
inductive Trigger where
  | reactiveDispatch
  | upgradeCharm
deriving DecidableEq

/-- Evaluation of one trigger over a fact set. -/
def dispatch (env : Env) (t : Trigger) (f : Facts) : Facts × List Action :=
  match t with
  | Trigger.reactiveDispatch => runPass env f
  | Trigger.upgradeCharm => runPass env (remove_states_on_upgrade f)

/-- The status report an action makes, if any. -/
def statusOfAction : Action → Option (Severity × String)
  | Action.npset sev msg => some (sev, msg)
  | _ => none

/-- The status left on the status channel after a list of actions runs,
starting from an initial status. -/
def statusAfter (init : Option (Severity × String)) (acts : List Action) :
    Option (Severity × String) :=
  acts.foldl
    (fun st a =>
      match statusOfAction a with
      | some p => some p
      | none => st)
    init

/-- True for a status report at error or blocked severity. -/
def isFailureReport : Action → Bool
  | Action.npset Severity.error _ => true
  | Action.npset Severity.blocked _ => true
  | _ => false

/-- Full charm state: the fact set plus the observable history (status
channel content and log of all action invocations so far). -/
structure CharmState where
  facts : Facts
  log : List Action
  status : Option (Severity × String)
deriving DecidableEq

/-- Run one trigger on the full charm state. -/
def step (env : Env) (t : Trigger) (s : CharmState) : CharmState :=
  let res := dispatch env t s.facts
  { facts := res.1
    log := s.log ++ res.2
    status := statusAfter s.status res.2 }

/-- The action invocations one trigger emits from a charm state. -/
def emitted (env : Env) (t : Trigger) (s : CharmState) : List Action :=
  (dispatch env t s.facts).2

/-- The empty fact set. -/
def noFacts : Facts :=
  ⟨false, false, false, false, false, false, false, false⟩

/-- An environment whose probe outcomes are irrelevant to the handler
under consideration. -/
def envBare : Env :=
  ⟨false, false, none, none, []⟩

/-- The guard disjunction `anyGuard` computes, spelled out. -/
theorem anyGuard_eq (f : Facts) :
    anyGuard f =
      (install_package_guard f || (enable_and_start_guard f ||
        (restart_guard f || (reinstall_guard f || remove_leftovers_guard f)))) := by
  simp [anyGuard, mainRules]

/-- C1: in a converged fact set (no guarded rule's guard holds),
block-started is never asserted while package-installed and stopped are
both absent; and whenever block-started is asserted with
package-installed and stopped absent, the `restart` rule's guard is
satisfied and firing it retracts block-started, changing nothing else. -/
theorem selfheal_restart_invariant (env : Env) (f : Facts) :
    (anyGuard f = false →
      ¬(f.blockStarted = true ∧ f.packageInstalled = false ∧ f.stopped = false)) ∧
    (f.blockStarted = true → f.packageInstalled = false → f.stopped = false →
      restart_guard f = true ∧
        restart env f = ({ f with blockStarted := false }, [])) := by
  constructor
  · intro h hbad
    obtain ⟨h1, h2, h3⟩ := hbad
    rw [anyGuard_eq] at h
    simp [restart_guard, h1, h2, h3] at h
  · intro h1 h2 h3
    exact ⟨by simp [restart_guard, h1, h2, h3], rfl⟩

/-- Witness for C1 at concrete fact sets: a converged empty fact set is
not in violation, and from the fact set with only block-started asserted
the restart rule fires and retracts it. -/
theorem selfheal_restart_invariant_witness :
    (¬(Facts.blockStarted ⟨false, false, false, false, false, false, false, false⟩ = true ∧
        Facts.packageInstalled ⟨false, false, false, false, false, false, false, false⟩ = false ∧
        Facts.stopped ⟨false, false, false, false, false, false, false, false⟩ = false)) ∧
    (restart_guard ⟨false, false, false, false, true, false, false, false⟩ = true ∧
      restart envBare ⟨false, false, false, false, true, false, false, false⟩ =
        (⟨false, false, false, false, false, false, false, false⟩, [])) :=
  ⟨(selfheal_restart_invariant envBare _).1 (by decide),
   (selfheal_restart_invariant envBare _).2 rfl rfl rfl⟩

/-- C3: whenever block-started is asserted and beacon-started (peer
readiness) and stopped are absent, the guard of the older variant's
`restart_even_better` rule is satisfied, and firing it retracts exactly
block-started, leaving every other fact unchanged. -/
theorem restart_on_peer_loss_fires (env : Env) (f : Facts)
    (h1 : f.blockStarted = true) (h2 : f.beaconStarted = false)
    (h3 : f.stopped = false) :
    restart_even_better_guard f = true ∧
    restart_even_better env f = ({ f with blockStarted := false }, []) :=
  ⟨by simp [restart_even_better_guard, h1, h2, h3], rfl⟩

/-- Witness for C3: from the fact set containing exactly
package-installed and block-started, with beacon-started absent, the
rule fires and its result keeps only package-installed. -/
theorem restart_on_peer_loss_fires_witness :
    restart_even_better_guard ⟨false, false, true, false, true, false, false, false⟩ = true ∧
    restart_even_better envBare ⟨false, false, true, false, true, false, false, false⟩ =
      (⟨false, false, true, false, false, false, false, false⟩, []) :=
  restart_on_peer_loss_fires envBare _ rfl rfl rfl

/-- C5: when the Enable and Start guards hold, in LXC the handler
asserts block-started without invoking any primitive; outside LXC with
the cgroup probe failing it changes nothing; outside LXC with the cgroup
probe succeeding it invokes the service-resume primitive and asserts
block-started. -/
theorem enable_and_start_behaviour (env : Env) (f : Facts)
    (hg : enable_and_start_guard f = true) :
    (env.inLxc = true →
      enable_and_start env f = ({ f with blockStarted := true }, [])) ∧
    (env.inLxc = false → env.cgroupsOk = false →
      enable_and_start env f = (f, [])) ∧
    (env.inLxc = false → env.cgroupsOk = true →
      enable_and_start env f =
        ({ f with blockStarted := true }, [Action.serviceResume "storpool_block"])) := by
  refine ⟨fun h => ?_, fun h hc => ?_, fun h hc => ?_⟩ <;>
    simp [enable_and_start, h]
  · simp [hc]
  · simp [hc]

/-- Witness for C5: with package-installed and beacon-started asserted,
outside LXC with the cgroup present, the service is resumed and
block-started asserted. -/
theorem enable_and_start_behaviour_witness :
    enable_and_start_guard ⟨false, false, true, true, false, false, false, false⟩ = true ∧
    enable_and_start ⟨false, true, none, none, []⟩
        ⟨false, false, true, true, false, false, false, false⟩ =
      (⟨false, false, true, true, true, false, false, false⟩,
       [Action.serviceResume "storpool_block"]) :=
  ⟨by decide,
   (enable_and_start_behaviour ⟨false, true, none, none, []⟩ _ (by decide)).2.2 rfl rfl⟩

/-- C7: the upgrade-charm hook retracts exactly package-installed and
block-started for every starting fact set — in particular stopped and
every other fact are unchanged — and from the fact set containing
package-installed, block-started and stopped the result contains only
stopped. -/
theorem upgrade_hook_frame (f : Facts) :
    remove_states_on_upgrade f =
      { f with packageInstalled := false, blockStarted := false } ∧
    (remove_states_on_upgrade f).stopped = f.stopped ∧
    remove_states_on_upgrade ⟨false, false, true, false, true, false, true, false⟩ =
      ⟨false, false, false, false, false, false, true, false⟩ :=
  ⟨rfl, rfl, rfl⟩

/-- C10: the Install rule action is monotone on the fact set: in every
environment its result is either the unchanged fact set or the fact set
with only package-installed newly asserted, and package-installed is
never retracted. -/
theorem install_package_monotone (env : Env) (f : Facts) :
    ((install_package env f).1 = f ∨
      (install_package env f).1 = { f with packageInstalled := true }) ∧
    f.packageInstalled ≤ (install_package env f).1.packageInstalled := by
  unfold install_package
  repeat' split
  all_goals simp [Bool.le_true]

/-- An environment outside LXC where the install primitive fails. -/
def envErr : Env :=
  ⟨false, true, some "16.02", some "oops", []⟩

/-- An environment outside LXC with no configured version. -/
def envNoVer : Env :=
  ⟨false, true, none, none, []⟩

/-- The fact set with the Install rule's positive guards asserted. -/
def readyFacts : Facts :=
  ⟨true, true, false, false, false, false, false, false⟩

/-- C2 counterexample: when the install primitive fails, no status
report at error or blocked severity is emitted; the status channel is
left holding the maintenance-severity installing message. -/
theorem install_error_no_error_status :
    (install_package envErr readyFacts).1 = readyFacts ∧
    ((install_package envErr readyFacts).2.all fun a => !(isFailureReport a)) = true ∧
    statusAfter none (install_package envErr readyFacts).2 =
      some (Severity.maintenance, installingMsg) := by
  decide

/-- C2 amended: when the Install rule runs outside LXC with a non-empty
configured version and the install primitive returns an error, no fact
changes, record-packages is not invoked, no error- or blocked-severity
status report is made, and the status channel is left holding the
maintenance-severity installing message, so the same rule can retry on
the next trigger. -/
theorem install_error_retry_frame (env : Env) (f : Facts) (v e : String)
    (h1 : env.inLxc = false) (h2 : env.storpoolVersion = some v)
    (h3 : v ≠ "") (h4 : env.installErr = some e) :
    (install_package env f).1 = f ∧
    (install_package env f).2 =
      [Action.npset Severity.maintenance obtainingMsg,
       Action.npset Severity.maintenance installingMsg,
       Action.installPackages "storpool-block" v] ∧
    (∀ names, Action.recordPackages "storpool-block" names ∉ (install_package env f).2) ∧
    (∀ a ∈ (install_package env f).2, isFailureReport a = false) ∧
    (∀ st, statusAfter st (install_package env f).2 =
      some (Severity.maintenance, installingMsg)) := by
  have key : install_package env f =
      (f, [Action.npset Severity.maintenance obtainingMsg,
           Action.npset Severity.maintenance installingMsg,
           Action.installPackages "storpool-block" v]) := by
    simp [install_package, h1, h2, h3, h4]
  rw [key]
  refine ⟨rfl, rfl, ?_, ?_, fun st => rfl⟩
  · intro names
    simp
  · intro a ha
    simp at ha
    rcases ha with h | h | h <;> simp [h, isFailureReport]

/-- Witness for C2 at the failing environment and concrete fact set. -/
theorem install_error_retry_frame_witness :
    (install_package envErr readyFacts).1 = readyFacts ∧
    (install_package envErr readyFacts).2 =
      [Action.npset Severity.maintenance obtainingMsg,
       Action.npset Severity.maintenance installingMsg,
       Action.installPackages "storpool-block" "16.02"] ∧
    (∀ names, Action.recordPackages "storpool-block" names ∉ (install_package envErr readyFacts).2) ∧
    (∀ a ∈ (install_package envErr readyFacts).2, isFailureReport a = false) ∧
    (∀ st, statusAfter st (install_package envErr readyFacts).2 =
      some (Severity.maintenance, installingMsg)) :=
  install_error_retry_frame envErr readyFacts "16.02" "oops" rfl rfl (by decide) rfl

/-- C4 counterexample: with no configured version the handler leaves the
status channel holding the maintenance-severity obtaining message — a
status message does remain set. -/
theorem install_no_version_status_set :
    statusAfter none (install_package envNoVer readyFacts).2 =
      some (Severity.maintenance, obtainingMsg) ∧
    statusAfter none (install_package envNoVer readyFacts).2 ≠ none := by
  decide

/-- C4 amended: when the Install rule runs outside a container and the
configured version is absent or empty, it performs no install call and
changes no fact; the condition is not treated as an error (no error- or
blocked-severity report), but the status channel is left holding the
maintenance-severity obtaining message rather than being unset; the rule
retries on a later trigger. -/
theorem install_no_version_noop (env : Env) (f : Facts)
    (h1 : env.inLxc = false)
    (h2 : env.storpoolVersion = none ∨ env.storpoolVersion = some "") :
    (install_package env f).1 = f ∧
    (install_package env f).2 = [Action.npset Severity.maintenance obtainingMsg] ∧
    (∀ p v, Action.installPackages p v ∉ (install_package env f).2) ∧
    (∀ a ∈ (install_package env f).2, isFailureReport a = false) ∧
    (∀ st, statusAfter st (install_package env f).2 =
      some (Severity.maintenance, obtainingMsg)) := by
  have key : install_package env f =
      (f, [Action.npset Severity.maintenance obtainingMsg]) := by
    rcases h2 with h2 | h2 <;> simp [install_package, h1, h2]
  rw [key]
  refine ⟨rfl, rfl, ?_, ?_, fun st => rfl⟩
  · intro p v
    simp
  · intro a ha
    simp at ha
    simp [ha, isFailureReport]

/-- Witness for C4 at the unconfigured environment and concrete facts. -/
theorem install_no_version_noop_witness :
    (install_package envNoVer readyFacts).1 = readyFacts ∧
    (install_package envNoVer readyFacts).2 =
      [Action.npset Severity.maintenance obtainingMsg] ∧
    (∀ p v, Action.installPackages p v ∉ (install_package envNoVer readyFacts).2) ∧
    (∀ a ∈ (install_package envNoVer readyFacts).2, isFailureReport a = false) ∧
    (∀ st, statusAfter st (install_package envNoVer readyFacts).2 =
      some (Severity.maintenance, obtainingMsg)) :=
  install_no_version_noop envNoVer readyFacts rfl (Or.inl rfl)

/-- C6: outside LXC, with the Stop rule's guard satisfied, the handler
retracts the stop request, pauses the service and unrecords/uninstalls
the layer's packages, asserts the storpool-beacon stop signal, retracts
package-installed and block-started, asserts stopped, and leaves every
other fact unchanged. -/
theorem stop_rule_postcondition (env : Env) (f : Facts)
    (h1 : env.inLxc = false) (hg : remove_leftovers_guard f = true) :
    remove_leftovers env f =
      ({ f with
          stop := false,
          packageInstalled := false,
          blockStarted := false,
          beaconStop := true,
          stopped := true },
       [Action.servicePause "storpool_block",
        Action.unrecordPackages "storpool-block"]) := by
  simp [remove_leftovers, reset_states, h1]

/-- Witness for C6: from the fact set with package-installed,
block-started and the stop request asserted, the final fact set holds
only stopped (plus the cross-component beacon stop signal), with the
pause and unrecord primitives invoked. -/
theorem stop_rule_postcondition_witness :
    remove_leftovers_guard ⟨false, false, true, false, true, true, false, false⟩ = true ∧
    remove_leftovers envBare ⟨false, false, true, false, true, true, false, false⟩ =
      (⟨false, false, false, false, false, false, true, true⟩,
       [Action.servicePause "storpool_block",
        Action.unrecordPackages "storpool-block"]) :=
  ⟨by decide, stop_rule_postcondition envBare _ rfl (by decide)⟩

/-- C8 counterexample: the upgrade-charm hook does not retract stopped —
applied to a fact set with stopped asserted, stopped remains asserted. -/
theorem upgrade_keeps_stopped :
    (remove_states_on_upgrade ⟨false, false, true, false, true, false, true, false⟩).stopped
      = true := by
  decide

/-- C8 amended: stopped is terminal — once it is asserted, no guarded
rule of either variant has a satisfied guard (so an evaluation pass
changes nothing and invokes nothing), and the upgrade hook retracts only
package-installed and block-started, leaving stopped asserted; nothing
in this layer retracts stopped. -/
theorem stopped_terminal (env : Env) (f : Facts) (h : f.stopped = true) :
    anyGuard f = false ∧
    restart_even_better_guard f = false ∧
    runPass env f = (f, []) ∧
    (remove_states_on_upgrade f).stopped = true := by
  have g1 : install_package_guard f = false := by simp [install_package_guard, h]
  have g2 : enable_and_start_guard f = false := by simp [enable_and_start_guard, h]
  have g3 : restart_guard f = false := by simp [restart_guard, h]
  have g4 : reinstall_guard f = false := by simp [reinstall_guard, h]
  have g5 : remove_leftovers_guard f = false := by simp [remove_leftovers_guard, h]
  refine ⟨?_, ?_, ?_, ?_⟩
  · rw [anyGuard_eq, g1, g2, g3, g4, g5]
    rfl
  · simp [restart_even_better_guard, h]
  · simp [runPass, mainRules, g1, g2, g3, g4, g5]
  · simp [remove_states_on_upgrade, reset_states, h]

/-- Witness for C8 at the fact set with everything asserted including
stopped: no guard fires and the pass is a no-op. -/
theorem stopped_terminal_witness :
    anyGuard ⟨true, true, true, true, true, true, true, true⟩ = false ∧
    restart_even_better_guard ⟨true, true, true, true, true, true, true, true⟩ = false ∧
    runPass envBare ⟨true, true, true, true, true, true, true, true⟩ =
      (⟨true, true, true, true, true, true, true, true⟩, []) ∧
    (remove_states_on_upgrade ⟨true, true, true, true, true, true, true, true⟩).stopped = true :=
  stopped_terminal envBare _ rfl

/-- C9: evaluation is deterministic — for a fixed environment (probe
outcomes, configuration, install result) and trigger, the resulting fact
set and the sequence of emitted action invocations depend only on the
fact set, not on any other part of the charm state such as the status
channel or the accumulated invocation log. -/
theorem evaluate_deterministic (env : Env) (t : Trigger) (s1 s2 : CharmState)
    (h : s1.facts = s2.facts) :
    (step env t s1).facts = (step env t s2).facts ∧
    emitted env t s1 = emitted env t s2 := by
  constructor
  · simp [step, h]
  · simp [emitted, h]

/-- Witness for C9: two charm states with the same facts but different
logs and statuses produce the same resulting facts and emissions. -/
theorem evaluate_deterministic_witness :
    (step envErr Trigger.reactiveDispatch ⟨readyFacts, [], none⟩).facts =
      (step envErr Trigger.reactiveDispatch
        ⟨readyFacts, [Action.serviceResume "storpool_block"],
         some (Severity.error, "failed")⟩).facts ∧
    emitted envErr Trigger.reactiveDispatch ⟨readyFacts, [], none⟩ =
      emitted envErr Trigger.reactiveDispatch
        ⟨readyFacts, [Action.serviceResume "storpool_block"],
         some (Severity.error, "failed")⟩ :=
  evaluate_deterministic envErr Trigger.reactiveDispatch _ _ rfl

end StorpoolBlock
